import Mathlib

/-!
Verification development for the `six` embedding bridge of the
datadog-agent repository. The only file under `src/` is the public C
header `src/six/include/datadog_agent_six.h`, which fixes the declared
surface (names, const-ness of the instance pointer, grouping into API
sections). The behaviour of each operation is not in `src/`; it is
modelled here from the specification (`spec.md`), with each such
definition carrying a doc comment starting `Modelled from the spec:`.

The guest runtime is a black box selected at construction; what it does
on a given call is represented by an explicit oracle argument (an
outcome value) passed to each guest-touching operation, so the bridge's
own contract (return codes, out-parameters, ErrorState discipline,
handle and allocation bookkeeping) is what the definitions encode.
-/

namespace DatadogAgentSix

/-- The two mutually-incompatible guest-runtime variants, fixed at
construction time (`make2` vs `make3`). -/
inductive Variant
  | python2
  | python3
deriving DecidableEq, Repr

/-- Initialization state of a RuntimeInstance. -/
inductive InitState
  | uninitialized
  | initialized
  | destroyed
deriving DecidableEq, Repr

/-- The nine callback slots of the Callback Table: three aggregator
slots and six agent slots, as declared in the header. -/
inductive Slot
  | submit_metric
  | submit_service_check
  | submit_event
  | get_version
  | get_config
  | headers
  | get_hostname
  | get_clustername
  | log
deriving DecidableEq, Repr

/-- One `Option Nat` field per slot: the registered native function
pointer (modelled as an opaque address), or `none` when unset. -/
structure CallbackTable where
  submit_metric : Option Nat
  submit_service_check : Option Nat
  submit_event : Option Nat
  get_version : Option Nat
  get_config : Option Nat
  headers : Option Nat
  get_hostname : Option Nat
  get_clustername : Option Nat
  log : Option Nat
deriving DecidableEq, Repr

def CallbackTable.get (t : CallbackTable) : Slot → Option Nat
  | .submit_metric => t.submit_metric
  | .submit_service_check => t.submit_service_check
  | .submit_event => t.submit_event
  | .get_version => t.get_version
  | .get_config => t.get_config
  | .headers => t.headers
  | .get_hostname => t.get_hostname
  | .get_clustername => t.get_clustername
  | .log => t.log

def CallbackTable.set (t : CallbackTable) (sl : Slot) (fp : Nat) : CallbackTable :=
  match sl with
  | .submit_metric => { t with submit_metric := some fp }
  | .submit_service_check => { t with submit_service_check := some fp }
  | .submit_event => { t with submit_event := some fp }
  | .get_version => { t with get_version := some fp }
  | .get_config => { t with get_config := some fp }
  | .headers => { t with headers := some fp }
  | .get_hostname => { t with get_hostname := some fp }
  | .get_clustername => { t with get_clustername := some fp }
  | .log => { t with log := some fp }

/-- The table with every slot unset. -/
def emptyCallbacks : CallbackTable :=
  ⟨none, none, none, none, none, none, none, none, none⟩

/-- GuestHandles are modelled as natural numbers; handle 0 is reserved
for the well-known "none" singleton returned by `get_none`. -/
def noneHandle : Nat := 0

/-- The state of one RuntimeInstance (`six_t` in the header):
variant fixed at construction, init state, the sticky ErrorState
message, the callback table, extra guest search paths, the handle
registry (association list handle ↦ guest refcount, for check
handles), the refcount of the none singleton, and the registry of
host-allocated strings handed to the caller (ids to be released via
`six_free`). -/
structure six_t where
  variant : Variant
  initState : InitState
  errorState : Option String
  callbacks : CallbackTable
  paths : List String
  refcounts : List (Nat × Nat)
  noneRefcount : Nat
  nextHandle : Nat
  hostAllocs : List Nat
  nextAlloc : Nat
deriving DecidableEq, Repr

/-- A freshly constructed instance: nothing started, no error, no
callbacks, none-singleton refcount at its floor. -/
def newSix (v : Variant) : six_t :=
  { variant := v
    initState := .uninitialized
    errorState := none
    callbacks := emptyCallbacks
    paths := []
    refcounts := []
    noneRefcount := 1
    nextHandle := 1
    hostAllocs := []
    nextAlloc := 0 }

/-- Modelled from the spec: factory for the variant-2 runtime. The
allocation outcome is an oracle; on allocation failure the factory
returns null (`none`), the only error channel before an ErrorState
exists. No guest runtime is started. -/
def make2 (allocOk : Bool) : Option six_t :=
  if allocOk then some (newSix .python2) else none

/-- Modelled from the spec: factory for the variant-3 runtime. -/
def make3 (allocOk : Bool) : Option six_t :=
  if allocOk then some (newSix .python3) else none

/-- What the guest runtime does when asked to start up. -/
inductive InitOutcome
  | ok
  | startFailure (msg : String)
  | invalidHome (msg : String)
deriving DecidableEq, Repr

/-- Modelled from the spec: `init` starts the embedded runtime. It may
only be called once per instance; on any failure ErrorState is
populated and the instance stays unusable for checks. Returns 0 on
success, nonzero on failure. -/
def init (s : six_t) (_pythonHome : String) (g : InitOutcome) : Int × six_t :=
  if s.initState = .uninitialized then
    match g with
    | .ok => (0, { s with initState := .initialized })
    | .startFailure msg => (1, { s with errorState := some msg })
    | .invalidHome msg => (1, { s with errorState := some msg })
  else
    (1, { s with errorState := some "six already initialized" })

/-- Modelled from the spec: `add_python_path` appends a module search
path. Before init it only records the path (the guest is untouched)
and succeeds; after init it depends on the variant capability
`postInitCap` — without it the call fails and sets ErrorState rather
than corrupting guest state. After destroy it fails. -/
def add_python_path (s : six_t) (path : String) (postInitCap : Bool) : Int × six_t :=
  match s.initState with
  | .uninitialized => (0, { s with paths := s.paths ++ [path] })
  | .initialized =>
      if postInitCap then (0, { s with paths := s.paths ++ [path] })
      else (1, { s with errorState := some "runtime does not support paths after init" })
  | .destroyed => (1, { s with errorState := some "six destroyed" })

/-- Modelled from the spec: `destroy` tears down the runtime and
releases all instance-tracked guest handles. -/
def destroy (s : six_t) : six_t :=
  { s with initState := .destroyed, refcounts := [] }

/-- Modelled from the spec: `is_initialized` is a pure query, never
fails, no side effects. -/
def is_initialized (s : six_t) : Bool :=
  s.initState = .initialized

/-- Modelled from the spec: `has_error` reads the sticky latch without
modifying it. -/
def has_error (s : six_t) : Bool :=
  s.errorState.isSome

/-- Modelled from the spec: `get_error` reads the latched message
without modifying it. -/
def get_error (s : six_t) : String :=
  s.errorState.getD ""

/-- Modelled from the spec: `clear_error` is the only operation that
clears the latch. -/
def clear_error (s : six_t) : six_t :=
  { s with errorState := none }

/-- Modelled from the spec: `get_py_version` returns a static
descriptor string for the bound variant; never fails. -/
def get_py_version (s : six_t) : String :=
  match s.variant with
  | .python2 => "2"
  | .python3 => "3"

/-- Modelled from the spec: `get_none` returns the well-known
singleton handle for "no value"; it never fails and does not depend on
the instance state. -/
def get_none (_s : six_t) : Nat :=
  noneHandle

/-- What the guest runtime does when asked to locate and instantiate a
check: success carries the version string; the three failure shapes
the spec names each carry a diagnostic message. -/
inductive GetCheckOutcome
  | ok (version : String)
  | nameNotFound (msg : String)
  | configParseError (msg : String)
  | instantiationExn (msg : String)
deriving DecidableEq, Repr

/-- The diagnostic message of a failing outcome, `none` on success. -/
def GetCheckOutcome.failMsg : GetCheckOutcome → Option String
  | .ok _ => none
  | .nameNotFound m => some m
  | .configParseError m => some m
  | .instantiationExn m => some m

/-- Result of `get_check`: return code, the check-handle out-parameter,
the version out-parameter (host allocation id with its contents), and
the post-state. -/
structure GetCheckResult where
  code : Int
  check : Option Nat
  version : Option (Nat × String)
  state : six_t
deriving DecidableEq, Repr

/-- Modelled from the spec: `get_check` instantiates a check by name
under the caller-held lock. On success: returns 0, writes a fresh
GuestHandle and a freshly host-allocated version string (ownership to
the caller, released via `six_free`). On any of the three failures:
nonzero code, ErrorState set, no handle, no allocation. Before a
successful init it fails cleanly and sets ErrorState. -/
def get_check (s : six_t) (_name _init_config _instances : String)
    (g : GetCheckOutcome) : GetCheckResult :=
  if s.initState = .initialized then
    match g with
    | .ok v =>
        { code := 0
          check := some s.nextHandle
          version := some (s.nextAlloc, v)
          state := { s with
            refcounts := (s.nextHandle, 1) :: s.refcounts
            nextHandle := s.nextHandle + 1
            hostAllocs := s.nextAlloc :: s.hostAllocs
            nextAlloc := s.nextAlloc + 1 } }
    | .nameNotFound m =>
        { code := 1, check := none, version := none
          state := { s with errorState := some m } }
    | .configParseError m =>
        { code := 1, check := none, version := none
          state := { s with errorState := some m } }
    | .instantiationExn m =>
        { code := 1, check := none, version := none
          state := { s with errorState := some m } }
  else
    { code := 1, check := none, version := none
      state := { s with errorState := some "six not initialized" } }

/-- What the guest runtime does when a check's run entry point is
invoked: a result payload, or an exception raised inside guest code. -/
inductive RunOutcome
  | ok (result : String)
  | exn (msg : String)
deriving DecidableEq, Repr

/-- Result of `run_check`: the caller-owned result string (allocation
id with contents) or the null sentinel, and the post-state. -/
structure RunCheckResult where
  result : Option (Nat × String)
  state : six_t
deriving DecidableEq, Repr

/-- Modelled from the spec: `run_check` invokes the check's execution
entry point under the caller-held lock. On success it returns a fresh
host-allocated result string (caller-owned, released via `six_free`)
and leaves ErrorState alone; a guest exception is caught at the
boundary and converted to ErrorState with a null result, never a
native fault. Before a successful init it fails cleanly and sets
ErrorState. -/
def run_check (s : six_t) (_check : Nat) (g : RunOutcome) : RunCheckResult :=
  if s.initState = .initialized then
    match g with
    | .ok r =>
        { result := some (s.nextAlloc, r)
          state := { s with
            hostAllocs := s.nextAlloc :: s.hostAllocs
            nextAlloc := s.nextAlloc + 1 } }
    | .exn m =>
        { result := none, state := { s with errorState := some m } }
  else
    { result := none, state := { s with errorState := some "six not initialized" } }

/-- What the guest runtime does when executing an inline code
fragment. -/
inductive SimpleOutcome
  | ok
  | exn (msg : String)
deriving DecidableEq, Repr

/-- Modelled from the spec: `run_simple_string` executes an inline
fragment in the guest's top-level scope under the caller-held lock;
it returns success or failure and sets ErrorState on guest-side
exceptions (even though the header declares it over a const instance
pointer). Before a successful init it fails cleanly and sets
ErrorState. -/
def run_simple_string (s : six_t) (_code : String) (g : SimpleOutcome) : Int × six_t :=
  if s.initState = .initialized then
    match g with
    | .ok => (0, s)
    | .exn m => (1, { s with errorState := some m })
  else
    (1, { s with errorState := some "six not initialized" })

/-- Modelled from the spec: `six_free` releases host-allocated memory
returned by a prior call; fire-and-forget, no failure signal. -/
def six_free (s : six_t) (p : Nat) : six_t :=
  { s with hostAllocs := s.hostAllocs.erase p }

def lookupCount (l : List (Nat × Nat)) (h : Nat) : Option Nat :=
  (l.find? (fun e => e.1 = h)).map Prod.snd

def setCount (l : List (Nat × Nat)) (h n : Nat) : List (Nat × Nat) :=
  l.map (fun e => if e.1 = h then (e.1, n) else e)

/-- Modelled from the spec: `six_decref` releases one guest-side
reference; fire-and-forget. Decref of a handle whose reference is
already gone is the caller protocol violation the spec leaves
undefined, modelled as the `error` case. The none singleton's
refcount has a floor of 1, so decref'ing it can never reach the
undefined case. -/
def six_decref (s : six_t) (h : Nat) : Except String six_t :=
  if h = noneHandle then
    Except.ok { s with noneRefcount := max 1 (s.noneRefcount - 1) }
  else
    match lookupCount s.refcounts h with
    | none => Except.error "decref of unknown handle"
    | some 0 => Except.error "decref of released handle"
    | some (n + 1) => Except.ok { s with refcounts := setCount s.refcounts h n }

/-- Iterated `six_decref` on the same handle. -/
def decrefIter (s : six_t) (h : Nat) : Nat → Except String six_t
  | 0 => Except.ok s
  | n + 1 =>
      match six_decref s h with
      | Except.ok s2 => decrefIter s2 h n
      | Except.error e => Except.error e

/-- Modelled from the spec: register one function pointer in one slot;
overwrites any prior pointer, never fails, touches nothing else. -/
def set_cb (s : six_t) (sl : Slot) (fp : Nat) : six_t :=
  { s with callbacks := s.callbacks.set sl fp }

def set_submit_metric_cb (s : six_t) (fp : Nat) : six_t := set_cb s .submit_metric fp
def set_submit_service_check_cb (s : six_t) (fp : Nat) : six_t := set_cb s .submit_service_check fp
def set_submit_event_cb (s : six_t) (fp : Nat) : six_t := set_cb s .submit_event fp
def set_get_version_cb (s : six_t) (fp : Nat) : six_t := set_cb s .get_version fp
def set_get_config_cb (s : six_t) (fp : Nat) : six_t := set_cb s .get_config fp
def set_headers_cb (s : six_t) (fp : Nat) : six_t := set_cb s .headers fp
def set_get_hostname_cb (s : six_t) (fp : Nat) : six_t := set_cb s .get_hostname fp
def set_get_clustername_cb (s : six_t) (fp : Nat) : six_t := set_cb s .get_clustername fp
def set_log_cb (s : six_t) (fp : Nat) : six_t := set_cb s .log fp

/-- Modelled from the spec: glue code inside the guest runtime invoking
a slot. An unset slot is a guarded no-op (returns no pointer, state
untouched, no fault), never undefined behaviour; a set slot yields the
registered pointer to call. -/
def invoke_slot (s : six_t) (sl : Slot) : Except String (six_t × Option Nat) :=
  match s.callbacks.get sl with
  | none => Except.ok (s, none)
  | some fp => Except.ok (s, some fp)

/-- The comment sections of `datadog_agent_six.h`. -/
inductive ApiSection
  | factories
  | api
  | constApi
  | aggregatorApi
  | datadogAgentApi
deriving DecidableEq, Repr

/-- One declaration of the header: its name, the section it is listed
under, and whether its instance parameter is `const six_t *`. -/
structure HeaderDecl where
  name : String
  apiSection : ApiSection
  constInstance : Bool
deriving DecidableEq, Repr

/-- The declaration surface of `src/six/include/datadog_agent_six.h`,
transcribed line by line. Note `is_initialized` is listed under the
CONST API section but takes a plain `six_t *`. -/
def headerDecls : List HeaderDecl :=
  [ ⟨"make2", .factories, false⟩
  , ⟨"make3", .factories, false⟩
  , ⟨"destroy", .api, false⟩
  , ⟨"init", .api, false⟩
  , ⟨"add_python_path", .api, false⟩
  , ⟨"ensure_gil", .api, false⟩
  , ⟨"clear_error", .api, false⟩
  , ⟨"release_gil", .api, false⟩
  , ⟨"get_check", .api, false⟩
  , ⟨"run_check", .api, false⟩
  , ⟨"six_free", .api, false⟩
  , ⟨"six_decref", .api, false⟩
  , ⟨"is_initialized", .constApi, false⟩
  , ⟨"get_none", .constApi, true⟩
  , ⟨"get_py_version", .constApi, true⟩
  , ⟨"run_simple_string", .constApi, true⟩
  , ⟨"has_error", .constApi, true⟩
  , ⟨"get_error", .constApi, true⟩
  , ⟨"set_submit_metric_cb", .aggregatorApi, false⟩
  , ⟨"set_submit_service_check_cb", .aggregatorApi, false⟩
  , ⟨"set_submit_event_cb", .aggregatorApi, false⟩
  , ⟨"set_get_version_cb", .datadogAgentApi, false⟩
  , ⟨"set_get_config_cb", .datadogAgentApi, false⟩
  , ⟨"set_headers_cb", .datadogAgentApi, false⟩
  , ⟨"set_get_hostname_cb", .datadogAgentApi, false⟩
  , ⟨"set_get_clustername_cb", .datadogAgentApi, false⟩
  , ⟨"set_log_cb", .datadogAgentApi, false⟩ ]

/-- Whether the header declares the named entry point with a
`const six_t *` instance parameter. -/
def declaredConstInstance (nm : String) : Bool :=
  ((headerDecls.find? (fun d => d.name = nm)).map HeaderDecl.constInstance).getD false

/-- Whether the header lists the named entry point under the CONST API
section comment. -/
def declaredInConstApi (nm : String) : Bool :=
  ((headerDecls.find? (fun d => d.name = nm)).map
    (fun d => decide (d.apiSection = ApiSection.constApi))).getD false

/-- Modelled from the spec: the Lock Coordinator's state — which
logical thread (if any) holds exclusive execution rights over the
guest runtime. -/
structure LockState where
  owner : Option Nat
deriving DecidableEq, Repr

/-- The token `ensure_gil` returns: the lock-ownership state of the
calling thread captured immediately before acquisition, so release can
restore exactly that prior state. -/
inductive six_gilstate_t
  | gilLocked
  | gilUnlocked
deriving DecidableEq, Repr

/-- Modelled from the spec: `ensure_gil` acquires exclusive execution
rights for thread `tid`, blocking while another thread holds them
(blocking modelled as `none`: no step is possible). It returns the
token capturing the prior state: `gilLocked` when the caller already
held the lock (the reentrant case, lock state unchanged), `gilUnlocked`
when it did not. -/
def ensure_gil (tid : Nat) (l : LockState) : Option (six_gilstate_t × LockState) :=
  match l.owner with
  | none => some (.gilUnlocked, ⟨some tid⟩)
  | some t => if t = tid then some (.gilLocked, l) else none

/-- Modelled from the spec: `release_gil` restores the execution-rights
state captured by the token: a `gilLocked` token leaves the lock held
as it was; a `gilUnlocked` token releases it. -/
def release_gil (_tid : Nat) (tok : six_gilstate_t) (l : LockState) : LockState :=
  match tok with
  | .gilLocked => l
  | .gilUnlocked => ⟨none⟩

/-- Every per-instance operation of the bridge, with its oracle inputs
where the guest runtime's behaviour matters. -/
inductive Op
  | opDestroy
  | opInit (home : String) (g : InitOutcome)
  | opAddPythonPath (path : String) (postInitCap : Bool)
  | opGetCheck (name init_config instances : String) (g : GetCheckOutcome)
  | opRunCheck (check : Nat) (g : RunOutcome)
  | opRunSimpleString (code : String) (g : SimpleOutcome)
  | opClearError
  | opHasError
  | opGetError
  | opIsInitialized
  | opGetNone
  | opGetPyVersion
  | opSixDecref (h : Nat)
  | opSixFree (p : Nat)
  | opSetCb (sl : Slot) (fp : Nat)
deriving DecidableEq, Repr

/-- One step of the instance state machine: the post-state and whether
the operation reported failure (nonzero code or null sentinel).
`Except.error` marks the caller protocol violations the spec leaves
undefined (double destroy, decref of a dead handle). -/
def step (s : six_t) : Op → Except String (six_t × Bool)
  | .opDestroy =>
      if s.initState = .destroyed then Except.error "double destroy"
      else Except.ok (destroy s, false)
  | .opInit home g =>
      Except.ok ((init s home g).2, (init s home g).1 != 0)
  | .opAddPythonPath p cap =>
      Except.ok ((add_python_path s p cap).2, (add_python_path s p cap).1 != 0)
  | .opGetCheck n ic insts g =>
      Except.ok ((get_check s n ic insts g).state, (get_check s n ic insts g).code != 0)
  | .opRunCheck ch g =>
      Except.ok ((run_check s ch g).state, (run_check s ch g).result.isNone)
  | .opRunSimpleString code g =>
      Except.ok ((run_simple_string s code g).2, (run_simple_string s code g).1 != 0)
  | .opClearError => Except.ok (clear_error s, false)
  | .opHasError => Except.ok (s, false)
  | .opGetError => Except.ok (s, false)
  | .opIsInitialized => Except.ok (s, false)
  | .opGetNone => Except.ok (s, false)
  | .opGetPyVersion => Except.ok (s, false)
  | .opSixDecref h =>
      match six_decref s h with
      | Except.ok s2 => Except.ok (s2, false)
      | Except.error e => Except.error e
  | .opSixFree p => Except.ok (six_free s p, false)
  | .opSetCb sl fp => Except.ok (set_cb s sl fp, false)

/-- A concrete fresh instance, for witnesses. -/
def six0 : six_t := newSix .python3

/-- A concrete instance after a successful `init`, for witnesses. -/
def six1 : six_t := { six0 with initState := .initialized }

/-- The five query operations the header groups under its CONST API
comment. -/
def queryOps : List Op :=
  [Op.opIsInitialized, Op.opGetNone, Op.opGetPyVersion, Op.opHasError, Op.opGetError]

/-- Helper: a successful `six_decref` never touches the error latch. -/
theorem six_decref_ok_errorState (s s2 : six_t) (h : Nat)
    (hd : six_decref s h = Except.ok s2) : s2.errorState = s.errorState := by
  unfold six_decref at hd
  by_cases hn : h = noneHandle
  · simp [hn] at hd
    subst hd
    rfl
  · simp [hn] at hd
    rcases hl : lookupCount s.refcounts h with _ | n
    · rw [hl] at hd
      cases hd
    · rw [hl] at hd
      cases n with
      | zero => cases hd
      | succ m =>
          simp at hd
          subst hd
          rfl

/-- Helper: a successful `six_decref` never changes the variant. -/
theorem six_decref_ok_variant (s s2 : six_t) (h : Nat)
    (hd : six_decref s h = Except.ok s2) : s2.variant = s.variant := by
  unfold six_decref at hd
  by_cases hn : h = noneHandle
  · simp [hn] at hd
    subst hd
    rfl
  · simp [hn] at hd
    rcases hl : lookupCount s.refcounts h with _ | n
    · rw [hl] at hd
      cases hd
    · rw [hl] at hd
      cases n with
      | zero => cases hd
      | succ m =>
          simp at hd
          subst hd
          rfl

/-- Helper: no operation of the bridge ever changes the variant the
instance was bound to at construction. -/
theorem step_preserves_variant (s : six_t) (op : Op) (s2 : six_t) (f : Bool)
    (h : step s op = Except.ok (s2, f)) : s2.variant = s.variant := by
  cases op with
  | opSixDecref hd =>
      simp only [step] at h
      rcases hdec : six_decref s hd with e | s3 <;> rw [hdec] at h
      · cases h
      · simp at h
        obtain ⟨rfl, rfl⟩ := h
        exact six_decref_ok_variant s s3 hd hdec
  | opDestroy =>
      simp only [step] at h
      split at h
      · cases h
      · simp at h
        obtain ⟨rfl, rfl⟩ := h
        rfl
  | opInit home g =>
      cases hs : s.initState <;> cases g <;>
        simp_all [step, init] <;> obtain ⟨rfl, rfl⟩ := h <;> rfl
  | opAddPythonPath p cap =>
      cases hs : s.initState <;> cases cap <;>
        simp_all [step, add_python_path] <;>
        (try obtain ⟨rfl, rfl⟩ := h) <;> (try rfl)
  | opGetCheck n ic insts g =>
      cases hs : s.initState <;> cases g <;>
        simp_all [step, get_check] <;> obtain ⟨rfl, rfl⟩ := h <;> rfl
  | opRunCheck ch g =>
      cases hs : s.initState <;> cases g <;>
        simp_all [step, run_check] <;> obtain ⟨rfl, rfl⟩ := h <;> rfl
  | opRunSimpleString code g =>
      cases hs : s.initState <;> cases g <;>
        simp_all [step, run_simple_string] <;> obtain ⟨rfl, rfl⟩ := h <;> rfl
  | opClearError =>
      simp [step] at h
      obtain ⟨rfl, rfl⟩ := h
      rfl
  | opHasError =>
      simp [step] at h
      obtain ⟨rfl, rfl⟩ := h
      rfl
  | opGetError =>
      simp [step] at h
      obtain ⟨rfl, rfl⟩ := h
      rfl
  | opIsInitialized =>
      simp [step] at h
      obtain ⟨rfl, rfl⟩ := h
      rfl
  | opGetNone =>
      simp [step] at h
      obtain ⟨rfl, rfl⟩ := h
      rfl
  | opGetPyVersion =>
      simp [step] at h
      obtain ⟨rfl, rfl⟩ := h
      rfl
  | opSixFree p =>
      simp [step] at h
      obtain ⟨rfl, rfl⟩ := h
      rfl
  | opSetCb sl fp =>
      simp [step] at h
      obtain ⟨rfl, rfl⟩ := h
      rfl

/-- C2: for every lock state on which `ensure_gil` can proceed,
`release_gil` with the returned token restores the lock to exactly its
pre-acquisition state; for a thread that already held the lock the
nested token leaves the lock held as it was, and after a release that
restored a free lock, acquisition by any other simulated thread
succeeds (no deadlock). -/
theorem ensure_release_gil_restores (tid : Nat) (l : LockState)
    (tok : six_gilstate_t) (l2 : LockState)
    (h : ensure_gil tid l = some (tok, l2)) :
    release_gil tid tok l2 = l
    ∧ (l.owner = some tid →
        tok = six_gilstate_t.gilLocked ∧ l2 = l
        ∧ (release_gil tid tok l2).owner = some tid)
    ∧ (l.owner = none →
        (release_gil tid tok l2).owner = none
        ∧ ∀ tid2, (ensure_gil tid2 (release_gil tid tok l2)).isSome) := by
  obtain ⟨o⟩ := l
  cases o with
  | none =>
      simp [ensure_gil] at h
      obtain ⟨rfl, rfl⟩ := h
      simp [release_gil, ensure_gil]
  | some t =>
      rcases eq_or_ne t tid with rfl | hne
      · simp [ensure_gil] at h
        obtain ⟨rfl, rfl⟩ := h
        simp [release_gil]
      · simp [ensure_gil, hne] at h

/-- Witness for C2 at the nested (reentrant) acquisition: thread 0
already holds the lock; the returned token leaves it held. -/
theorem ensure_release_gil_restores_witness :
    release_gil 0 six_gilstate_t.gilLocked ⟨some 0⟩ = (⟨some 0⟩ : LockState)
    ∧ (release_gil 0 six_gilstate_t.gilLocked ⟨some 0⟩).owner = some 0 :=
  ⟨(ensure_release_gil_restores 0 ⟨some 0⟩ six_gilstate_t.gilLocked ⟨some 0⟩ (by decide)).1,
   ((ensure_release_gil_restores 0 ⟨some 0⟩ six_gilstate_t.gilLocked ⟨some 0⟩
      (by decide)).2.1 rfl).2.2⟩

/-- C6: registering a pointer in any of the nine slots always succeeds
(the step reports no failure and leaves the error latch alone),
overwrites exactly that slot, and invoking a never-registered slot is a
guarded no-op rather than undefined behaviour. -/
theorem set_cb_overwrites_and_unset_noop (s : six_t) (sl : Slot) (fp : Nat) :
    (set_cb s sl fp).callbacks.get sl = some fp
    ∧ (∀ sl2, sl2 ≠ sl → (set_cb s sl fp).callbacks.get sl2 = s.callbacks.get sl2)
    ∧ (set_cb s sl fp).errorState = s.errorState
    ∧ (set_cb s sl fp).initState = s.initState
    ∧ step s (Op.opSetCb sl fp) = Except.ok (set_cb s sl fp, false)
    ∧ (s.callbacks.get sl = none → invoke_slot s sl = Except.ok (s, none)) := by
  refine ⟨?_, ?_, rfl, rfl, rfl, ?_⟩
  · cases sl <;> rfl
  · intro sl2 hne
    cases sl <;> cases sl2 <;>
      simp_all [set_cb, CallbackTable.get, CallbackTable.set]
  · intro hun
    simp [invoke_slot, hun]

/-- Witness for C6: registering in the `log` slot of a fresh instance,
whose slot was unset so invocation was a no-op. -/
theorem set_cb_overwrites_witness :
    (set_cb six0 Slot.log 7).callbacks.get Slot.log = some 7
    ∧ invoke_slot six0 Slot.log = Except.ok (six0, none) :=
  ⟨(set_cb_overwrites_and_unset_noop six0 Slot.log 7).1,
   (set_cb_overwrites_and_unset_noop six0 Slot.log 7).2.2.2.2.2 (by decide)⟩

/-- C7: each factory either returns an instance bound to its variant
with no guest runtime started and no error latched, or returns null on
allocation failure — the only error channel before an ErrorState
exists; and no later operation ever rebinds the variant. -/
theorem make_factories_contract (allocOk : Bool) :
    (∀ s, make2 allocOk = some s →
        s.variant = Variant.python2 ∧ s.initState = InitState.uninitialized
        ∧ s.errorState = none)
    ∧ (∀ s, make3 allocOk = some s →
        s.variant = Variant.python3 ∧ s.initState = InitState.uninitialized
        ∧ s.errorState = none)
    ∧ (allocOk = false ↔ make2 allocOk = none)
    ∧ (allocOk = false ↔ make3 allocOk = none)
    ∧ (∀ s op s2 f, step s op = Except.ok (s2, f) → s2.variant = s.variant) := by
  refine ⟨?_, ?_, ?_, ?_, fun s op s2 f h => step_preserves_variant s op s2 f h⟩ <;>
    cases allocOk <;> simp [make2, make3, newSix]

/-- Witness for C7: successful allocation of a variant-2 instance. -/
theorem make_factories_contract_witness :
    (newSix Variant.python2).variant = Variant.python2
    ∧ (newSix Variant.python2).initState = InitState.uninitialized
    ∧ (newSix Variant.python2).errorState = none :=
  (make_factories_contract true).1 (newSix Variant.python2) rfl

/-- C8: `get_none` never fails, always returns the same well-known
singleton handle whatever the instance state, and decref'ing that
handle any number of times never reaches the undefined (crash) case:
the singleton's refcount has a floor of 1. -/
theorem get_none_singleton_decref_floor (s : six_t) (n : Nat)
    (hfloor : 1 ≤ s.noneRefcount) :
    get_none s = noneHandle
    ∧ (∀ s2, get_none s2 = get_none s)
    ∧ ∃ s3, decrefIter s (get_none s) n = Except.ok s3 ∧ 1 ≤ s3.noneRefcount := by
  refine ⟨rfl, fun s2 => rfl, ?_⟩
  induction n generalizing s with
  | zero => exact ⟨s, rfl, hfloor⟩
  | succ m ih =>
      have hdec : six_decref s noneHandle
          = Except.ok { s with noneRefcount := max 1 (s.noneRefcount - 1) } := by
        simp [six_decref]
      obtain ⟨s3, h3, hf3⟩ :=
        ih { s with noneRefcount := max 1 (s.noneRefcount - 1) } (le_max_left 1 _)
      exact ⟨s3, by simp [decrefIter, get_none, hdec]; simpa [get_none] using h3, hf3⟩

/-- Witness for C8: three decrefs of the none singleton on a fresh
instance stay in the defined domain. -/
theorem get_none_singleton_decref_floor_witness :
    get_none six0 = noneHandle
    ∧ ∃ s3, decrefIter six0 (get_none six0) 3 = Except.ok s3 ∧ 1 ≤ s3.noneRefcount :=
  ⟨(get_none_singleton_decref_floor six0 3 (by decide)).1,
   (get_none_singleton_decref_floor six0 3 (by decide)).2.2⟩

/-- C3: on an initialized instance, `get_check` on success returns 0,
writes the fresh GuestHandle and a fresh host allocation holding the
version string (released via `six_free`), leaving the error latch
alone; on each of the three failure shapes it returns nonzero, sets
ErrorState to the diagnostic, and produces neither handle nor
allocation. -/
theorem get_check_contract (s : six_t) (name ic insts : String)
    (g : GetCheckOutcome) (hs : s.initState = InitState.initialized) :
    (∀ v, g = GetCheckOutcome.ok v →
        (get_check s name ic insts g).code = 0
        ∧ (get_check s name ic insts g).check = some s.nextHandle
        ∧ (get_check s name ic insts g).version = some (s.nextAlloc, v)
        ∧ (get_check s name ic insts g).state.errorState = s.errorState
        ∧ s.nextAlloc ∈ (get_check s name ic insts g).state.hostAllocs
        ∧ (six_free (get_check s name ic insts g).state s.nextAlloc).hostAllocs
            = s.hostAllocs)
    ∧ (∀ m, g.failMsg = some m →
        (get_check s name ic insts g).code ≠ 0
        ∧ (get_check s name ic insts g).check = none
        ∧ (get_check s name ic insts g).version = none
        ∧ (get_check s name ic insts g).state = { s with errorState := some m }) := by
  cases g <;> simp [get_check, GetCheckOutcome.failMsg, hs, six_free]

/-- Witness for C3: fetching a check on an initialized instance with a
resolving name. -/
theorem get_check_contract_witness :
    (get_check six1 "disk" "cfg" "inst" (GetCheckOutcome.ok "1.0")).code = 0
    ∧ (get_check six1 "disk" "cfg" "inst" (GetCheckOutcome.ok "1.0")).check
        = some six1.nextHandle
    ∧ (get_check six1 "disk" "cfg" "inst" (GetCheckOutcome.ok "1.0")).version
        = some (six1.nextAlloc, "1.0") :=
  ⟨((get_check_contract six1 "disk" "cfg" "inst" (GetCheckOutcome.ok "1.0") rfl).1
      "1.0" rfl).1,
   ((get_check_contract six1 "disk" "cfg" "inst" (GetCheckOutcome.ok "1.0") rfl).1
      "1.0" rfl).2.1,
   ((get_check_contract six1 "disk" "cfg" "inst" (GetCheckOutcome.ok "1.0") rfl).1
      "1.0" rfl).2.2.1⟩

/-- C4: on an initialized instance, `run_check` either returns a fresh
caller-owned host allocation with the result payload (released via
`six_free`) leaving the error latch alone, or — when guest code raises
— returns the null sentinel and sets ErrorState; the step is always an
`ok` step, never a native fault. -/
theorem run_check_contract (s : six_t) (check : Nat) (g : RunOutcome)
    (hs : s.initState = InitState.initialized) :
    (∀ r, g = RunOutcome.ok r →
        (run_check s check g).result = some (s.nextAlloc, r)
        ∧ (run_check s check g).state.errorState = s.errorState
        ∧ s.nextAlloc ∈ (run_check s check g).state.hostAllocs
        ∧ (six_free (run_check s check g).state s.nextAlloc).hostAllocs
            = s.hostAllocs)
    ∧ (∀ m, g = RunOutcome.exn m →
        (run_check s check g).result = none
        ∧ (run_check s check g).state = { s with errorState := some m })
    ∧ step s (Op.opRunCheck check g)
        = Except.ok ((run_check s check g).state, (run_check s check g).result.isNone) := by
  refine ⟨?_, ?_, rfl⟩ <;> cases g <;> simp [run_check, hs, six_free]

/-- Witness for C4: a successful run on an initialized instance. -/
theorem run_check_contract_witness :
    (run_check six1 1 (RunOutcome.ok "payload")).result = some (six1.nextAlloc, "payload")
    ∧ (run_check six1 1 (RunOutcome.ok "payload")).state.errorState = six1.errorState :=
  ⟨((run_check_contract six1 1 (RunOutcome.ok "payload") rfl).1 "payload" rfl).1,
   ((run_check_contract six1 1 (RunOutcome.ok "payload") rfl).1 "payload" rfl).2.1⟩

/-- C5 counterexample: the claim includes `add_python_path` among the
operations that must fail before init, but on an uninitialized
instance `add_python_path` succeeds (per the spec it is valid before
init: it only records the path, touching no guest state) and leaves
the error latch untouched. -/
theorem uninitialized_ops_cex :
    six0.initState = InitState.uninitialized
    ∧ (add_python_path six0 "/extra" true).1 = 0
    ∧ (add_python_path six0 "/extra" true).2.errorState = none :=
  ⟨rfl, rfl, rfl⟩

/-- C5 amended: before a successful init, the guest-touching
operations `get_check`, `run_check` and `run_simple_string` fail
cleanly (failure code or null sentinel, no crash) and set ErrorState;
`add_python_path` before init is valid — it records the path without
touching the guest, succeeds, and leaves the error latch alone. -/
theorem uninitialized_guest_ops_fail (s : six_t)
    (h : s.initState = InitState.uninitialized) :
    (∀ name ic insts g,
        (get_check s name ic insts g).code ≠ 0
        ∧ (get_check s name ic insts g).check = none
        ∧ ((get_check s name ic insts g).state.errorState).isSome = true)
    ∧ (∀ ch g,
        (run_check s ch g).result = none
        ∧ ((run_check s ch g).state.errorState).isSome = true)
    ∧ (∀ code g,
        (run_simple_string s code g).1 ≠ 0
        ∧ (((run_simple_string s code g).2).errorState).isSome = true)
    ∧ (∀ p cap,
        (add_python_path s p cap).1 = 0
        ∧ (add_python_path s p cap).2.errorState = s.errorState
        ∧ (add_python_path s p cap).2.paths = s.paths ++ [p]) := by
  refine ⟨?_, ?_, ?_, ?_⟩ <;> intros <;>
    simp [get_check, run_check, run_simple_string, add_python_path, h]

/-- Witness for C5 (amended) on a fresh instance. -/
theorem uninitialized_guest_ops_fail_witness :
    (get_check six0 "disk" "cfg" "inst" (GetCheckOutcome.ok "1.0")).code ≠ 0
    ∧ (get_check six0 "disk" "cfg" "inst" (GetCheckOutcome.ok "1.0")).check = none
    ∧ (run_check six0 1 (RunOutcome.ok "payload")).result = none :=
  ⟨((uninitialized_guest_ops_fail six0 rfl).1 "disk" "cfg" "inst"
      (GetCheckOutcome.ok "1.0")).1,
   ((uninitialized_guest_ops_fail six0 rfl).1 "disk" "cfg" "inst"
      (GetCheckOutcome.ok "1.0")).2.1,
   ((uninitialized_guest_ops_fail six0 rfl).2.1 1 (RunOutcome.ok "payload")).1⟩

/-- C9 counterexample: the header does not declare all five query
operations over a const instance pointer — `is_initialized` is listed
under the CONST API comment yet takes a plain non-const pointer. -/
theorem const_queries_decl_cex :
    declaredConstInstance "is_initialized" = false
    ∧ declaredInConstApi "is_initialized" = true
    ∧ (["is_initialized", "get_none", "get_py_version", "has_error",
        "get_error"].all declaredConstInstance) = false := by
  decide

/-- C9 amended: `get_none`, `get_py_version`, `has_error` and
`get_error` are declared over const instance pointers while
`is_initialized`, though grouped under the header's CONST API section,
takes a non-const pointer; nevertheless all five queries leave every
observable field of the instance unchanged, so running any of them
before any other operation behaves exactly as running that operation
directly. -/
theorem const_queries_preserve_state (s : six_t) (op : Op) :
    (declaredConstInstance "get_none" = true
      ∧ declaredConstInstance "get_py_version" = true
      ∧ declaredConstInstance "has_error" = true
      ∧ declaredConstInstance "get_error" = true
      ∧ declaredInConstApi "is_initialized" = true
      ∧ declaredConstInstance "is_initialized" = false)
    ∧ (∀ q ∈ queryOps, step s q = Except.ok (s, false))
    ∧ (∀ q ∈ queryOps, ∀ s2 f, step s q = Except.ok (s2, f) → step s2 op = step s op) := by
  refine ⟨by decide, ?_, ?_⟩
  · intro q hq
    fin_cases hq <;> rfl
  · intro q hq s2 f h
    fin_cases hq <;>
      (simp [step] at h; obtain ⟨rfl, rfl⟩ := h; rfl)

/-- Witness for C9 (amended): the query steps on a concrete
initialized instance. -/
theorem const_queries_preserve_state_witness :
    step six1 Op.opHasError = Except.ok (six1, false) :=
  (const_queries_preserve_state six1 Op.opClearError).2.1 Op.opHasError (by decide)

/-- C10 counterexample: `run_simple_string` is indeed declared over a
const instance pointer under the header's CONST API section, yet on a
guest-side exception it changes the instance's observable state — it
sets ErrorState. -/
theorem run_simple_string_const_cex :
    declaredConstInstance "run_simple_string" = true
    ∧ declaredInConstApi "run_simple_string" = true
    ∧ (run_simple_string six1 "boom" (SimpleOutcome.exn "guest exception")).2 ≠ six1
    ∧ (run_simple_string six1 "boom" (SimpleOutcome.exn "guest exception")).2.errorState
        ≠ six1.errorState := by
  decide

/-- C10 amended: the header declares `run_simple_string` over a const
instance pointer, but the const qualifier does not carry to behaviour:
on success the instance is left unchanged, while a guest-side
exception sets ErrorState through that same handle. -/
theorem run_simple_string_sets_error_despite_const (s : six_t) (code : String)
    (hs : s.initState = InitState.initialized) :
    declaredConstInstance "run_simple_string" = true
    ∧ run_simple_string s code SimpleOutcome.ok = (0, s)
    ∧ (∀ m, run_simple_string s code (SimpleOutcome.exn m)
        = (1, { s with errorState := some m })) := by
  refine ⟨by decide, ?_, ?_⟩ <;> simp [run_simple_string, hs]

/-- Witness for C10 (amended) on a concrete initialized instance. -/
theorem run_simple_string_sets_error_witness :
    run_simple_string six1 "assignment" SimpleOutcome.ok = (0, six1)
    ∧ run_simple_string six1 "raise" (SimpleOutcome.exn "boom")
        = (1, { six1 with errorState := some "boom" }) :=
  ⟨(run_simple_string_sets_error_despite_const six1 "assignment" rfl).2.1,
   (run_simple_string_sets_error_despite_const six1 "raise" rfl).2.2 "boom"⟩

/-- C1: the ErrorState is a sticky latch. Over every step of the
instance machine: any step reporting failure leaves the latch set; no
step other than `opClearError` ever turns a set latch off; a
successful non-clear step leaves the latch exactly as it was (never
auto-cleared); `has_error` and `get_error` read the latch without the
step modifying the instance; `clear_error` is the one step that clears
it. -/
theorem errorState_sticky_latch (s : six_t) (op : Op) (s2 : six_t) (f : Bool)
    (h : step s op = Except.ok (s2, f)) :
    (f = true → s2.errorState.isSome = true)
    ∧ (op ≠ Op.opClearError → s.errorState.isSome = true → s2.errorState.isSome = true)
    ∧ (f = false → op ≠ Op.opClearError → s2.errorState = s.errorState)
    ∧ (op = Op.opHasError ∨ op = Op.opGetError → s2 = s)
    ∧ (op = Op.opClearError → s2.errorState = none)
    ∧ has_error s = s.errorState.isSome
    ∧ (∀ m, s.errorState = some m → get_error s = m) := by
  have hget : ∀ m, s.errorState = some m → get_error s = m := by
    intro m hm
    simp [get_error, hm]
  have main :
      (f = true → s2.errorState.isSome = true)
      ∧ (op ≠ Op.opClearError → s.errorState.isSome = true → s2.errorState.isSome = true)
      ∧ (f = false → op ≠ Op.opClearError → s2.errorState = s.errorState)
      ∧ (op = Op.opHasError ∨ op = Op.opGetError → s2 = s)
      ∧ (op = Op.opClearError → s2.errorState = none) := by
    cases op with
    | opDestroy =>
        simp only [step] at h
        split at h
        · cases h
        · simp at h
          obtain ⟨rfl, rfl⟩ := h
          simp [destroy]
    | opInit home g =>
        cases hsi : s.initState <;> cases g <;>
          (simp [step, init, hsi] at h
           obtain ⟨rfl, rfl⟩ := h
           simp)
    | opAddPythonPath p cap =>
        cases hsi : s.initState <;> cases cap <;>
          (simp [step, add_python_path, hsi] at h
           obtain ⟨rfl, rfl⟩ := h
           simp)
    | opGetCheck n ic insts g =>
        cases hsi : s.initState <;> cases g <;>
          (simp [step, get_check, hsi] at h
           obtain ⟨rfl, rfl⟩ := h
           simp)
    | opRunCheck ch g =>
        cases hsi : s.initState <;> cases g <;>
          (simp [step, run_check, hsi] at h
           obtain ⟨rfl, rfl⟩ := h
           simp)
    | opRunSimpleString code g =>
        cases hsi : s.initState <;> cases g <;>
          (simp [step, run_simple_string, hsi] at h
           obtain ⟨rfl, rfl⟩ := h
           simp)
    | opClearError =>
        simp [step] at h
        obtain ⟨rfl, rfl⟩ := h
        simp [clear_error]
    | opHasError =>
        simp [step] at h
        obtain ⟨rfl, rfl⟩ := h
        simp
    | opGetError =>
        simp [step] at h
        obtain ⟨rfl, rfl⟩ := h
        simp
    | opIsInitialized =>
        simp [step] at h
        obtain ⟨rfl, rfl⟩ := h
        simp
    | opGetNone =>
        simp [step] at h
        obtain ⟨rfl, rfl⟩ := h
        simp
    | opGetPyVersion =>
        simp [step] at h
        obtain ⟨rfl, rfl⟩ := h
        simp
    | opSixDecref hd =>
        simp only [step] at h
        rcases hdec : six_decref s hd with e | s3 <;> rw [hdec] at h
        · cases h
        · simp at h
          obtain ⟨rfl, rfl⟩ := h
          have he := six_decref_ok_errorState s s3 hd hdec
          simp [he]
    | opSixFree p =>
        simp [step] at h
        obtain ⟨rfl, rfl⟩ := h
        simp [six_free]
    | opSetCb sl fp =>
        simp [step] at h
        obtain ⟨rfl, rfl⟩ := h
        simp [set_cb]
  exact ⟨main.1, main.2.1, main.2.2.1, main.2.2.2.1, main.2.2.2.2, rfl, hget⟩

/-- Witness for C1: a guest exception inside `run_simple_string` on a
concrete initialized instance is a failing step that latches the
error. -/
theorem errorState_sticky_latch_witness :
    ({ six1 with errorState := some "boom" } : six_t).errorState.isSome = true
    ∧ has_error six1 = six1.errorState.isSome :=
  ⟨(errorState_sticky_latch six1 (Op.opRunSimpleString "raise" (SimpleOutcome.exn "boom"))
      { six1 with errorState := some "boom" } true rfl).1 rfl,
   (errorState_sticky_latch six1 (Op.opRunSimpleString "raise" (SimpleOutcome.exn "boom"))
      { six1 with errorState := some "boom" } true rfl).2.2.2.2.2.1⟩

end DatadogAgentSix
